import Mathlib

/-!
Verification of the xkb-data keyboard-layout loader (src/lib.rs).

The Rust data model (serde-deserialized XML schema) is embedded as plain
Lean structures.  External effects are captured by an explicit environment:
the filesystem is a function from path to either a platform I/O error or
the file contents, the XML deserializer (serde_xml_rs) is a function from
contents to either a parser message or a parsed catalog, and the two
environment variables are optional strings.  Every loader of the library is
then a pure function of that environment, translated clause by clause from
the source.
-/

/-- Mirrors std::io::ErrorKind as far as this library distinguishes kinds. -/
inductive IOErrorKind where
  | NotFound
  | PermissionDenied
  | InvalidData
  | Other (code : Nat)
deriving DecidableEq, Repr

/-- Mirrors std::io::Error: a kind together with its display message. -/
structure IOError where
  kind : IOErrorKind
  msg : String
deriving DecidableEq, Repr

/-- format of an io::Error: its display message. -/
def IOError.display (e : IOError) : String := e.msg

/-- Rust struct ConfigItem: name, optional shortDescription, description. -/
structure ConfigItem where
  name : String
  short_description : Option String
  description : String
deriving DecidableEq, Repr

/-- Rust struct KeyboardVariant: wraps one configItem. -/
structure KeyboardVariant where
  config_item : ConfigItem
deriving DecidableEq, Repr

/-- Rust struct VariantList: an optional vector of variants. -/
structure VariantList where
  variant : Option (List KeyboardVariant)
deriving DecidableEq, Repr

/-- Rust struct KeyboardLayout: a configItem plus an optional variantList. -/
structure KeyboardLayout where
  config_item : ConfigItem
  variant_list : Option VariantList
deriving DecidableEq, Repr

/-- Rust struct LayoutList: a vector of layouts. -/
structure LayoutList where
  layout : List KeyboardLayout
deriving DecidableEq, Repr

/-- Rust struct KeyboardLayouts: the top-level catalog. -/
structure KeyboardLayouts where
  layout_list : LayoutList
deriving DecidableEq, Repr

/-- KeyboardLayouts::layouts. -/
def KeyboardLayouts.layouts (k : KeyboardLayouts) : List KeyboardLayout :=
  k.layout_list.layout

/-- KeyboardLayout::name. -/
def KeyboardLayout.name (l : KeyboardLayout) : String := l.config_item.name

/-- KeyboardLayout::description. -/
def KeyboardLayout.description (l : KeyboardLayout) : String :=
  l.config_item.description

/-- KeyboardLayout::variants: self.variant_list.as_ref().and_then(|x| x.variant.as_ref()). -/
def KeyboardLayout.variants (l : KeyboardLayout) : Option (List KeyboardVariant) :=
  l.variant_list.bind fun x => x.variant

/-- KeyboardVariant::name. -/
def KeyboardVariant.name (v : KeyboardVariant) : String := v.config_item.name

/-- KeyboardVariant::description. -/
def KeyboardVariant.description (v : KeyboardVariant) : String :=
  v.config_item.description

/-- const X11_BASE_RULES. -/
def X11_BASE_RULES : String := "/usr/share/X11/xkb/rules/base.xml"

/-- const X11_EXTRAS_RULES. -/
def X11_EXTRAS_RULES : String := "/usr/share/X11/xkb/rules/base.extras.xml"

/-- The ambient world the library runs in: File::open (returning either a
platform I/O error or the full file contents), the serde_xml_rs
deserializer (returning either its display message or a catalog -- a fixed
function, since the deserializer is deterministic and stateless), and the
two path-override environment variables. -/
structure Env where
  fs : String → Except IOError String
  parse : String → Except String KeyboardLayouts
  x11BaseRulesXml : Option String
  x11ExtraRulesXml : Option String

/-- get_keyboard_layouts: open the file (propagating the open error with
the ? operator), parse it, and map a parse failure to
io::Error::new(InvalidData, format of why). -/
def get_keyboard_layouts (env : Env) (path : String) : Except IOError KeyboardLayouts :=
  match env.fs path with
  | .error e => .error e
  | .ok contents =>
    match env.parse contents with
    | .ok k => .ok k
    | .error why => .error ⟨IOErrorKind.InvalidData, why⟩

/-- keyboard_layouts: use X11_BASE_RULES_XML when readable, else the default. -/
def keyboard_layouts (env : Env) : Except IOError KeyboardLayouts :=
  match env.x11BaseRulesXml with
  | some x11_base_rules_xml => get_keyboard_layouts env x11_base_rules_xml
  | none => get_keyboard_layouts env X11_BASE_RULES

/-- extra_keyboard_layouts: use X11_EXTRA_RULES_XML when readable, else the default. -/
def extra_keyboard_layouts (env : Env) : Except IOError KeyboardLayouts :=
  match env.x11ExtraRulesXml with
  | some x11_extra_rules_xml => get_keyboard_layouts env x11_extra_rules_xml
  | none => get_keyboard_layouts env X11_EXTRAS_RULES

/-- concat_layout_lists: start from an empty vector and extend it with each
list's layouts in input order. -/
def concat_layout_lists (layouts : List LayoutList) : LayoutList :=
  ⟨layouts.foldl (fun new_layouts layout_list => new_layouts ++ layout_list.layout) []⟩

/-- merge_rules: concatenate the two layout lists, base first. -/
def merge_rules (base extras : KeyboardLayouts) : KeyboardLayouts :=
  ⟨concat_layout_lists [base.layout_list, extras.layout_list]⟩

/-- all_keyboard_layouts: load both catalogs, merge on double success, and on
any failure rebuild the error as io::Error::new(InvalidData, format of why),
base failure matched first. -/
def all_keyboard_layouts (env : Env) : Except IOError KeyboardLayouts :=
  let base_rules := keyboard_layouts env
  let extras_rules := extra_keyboard_layouts env
  match base_rules, extras_rules with
  | .ok base_rules, .ok extras_rules => .ok (merge_rules base_rules extras_rules)
  | .error why, _ => .error ⟨IOErrorKind.InvalidData, why.display⟩
  | _, .error why => .error ⟨IOErrorKind.InvalidData, why.display⟩

lemma concat_foldl_eq (ls : List LayoutList) (init : List KeyboardLayout) :
    ls.foldl (fun new_layouts layout_list => new_layouts ++ layout_list.layout) init
      = init ++ (ls.map LayoutList.layout).flatten := by
  induction ls generalizing init with
  | nil => simp
  | cons hd tl ih => simp [ih, List.append_assoc]

lemma concat_layout_lists_layout (ls : List LayoutList) :
    (concat_layout_lists ls).layout = (ls.map LayoutList.layout).flatten := by
  simpa [concat_layout_lists] using concat_foldl_eq ls []

lemma merge_rules_layouts (base extras : KeyboardLayouts) :
    (merge_rules base extras).layouts = base.layouts ++ extras.layouts := by
  simp [merge_rules, KeyboardLayouts.layouts, concat_layout_lists_layout]

/-- Claim C4: for every finite sequence of LayoutList values, of any length,
concat_layout_lists returns the LayoutList whose layout sequence is the
concatenation of the inputs' layout sequences in input order. -/
theorem c4_concat_flattens (ls : List LayoutList) :
    concat_layout_lists ls = ⟨(ls.map LayoutList.layout).flatten⟩ := by
  apply congrArg LayoutList.mk
  exact concat_layout_lists_layout ls

/-! Path-resolution helpers (the match inside keyboard_layouts and
extra_keyboard_layouts, factored out so theorems can name the effective
path) and lemmas about all_keyboard_layouts' three match arms. -/

/-- The path keyboard_layouts reads: the X11_BASE_RULES_XML override when
readable, else the default. -/
def resolved_base_path (env : Env) : String :=
  match env.x11BaseRulesXml with
  | some p => p
  | none => X11_BASE_RULES

/-- The path extra_keyboard_layouts reads: the X11_EXTRA_RULES_XML override
when readable, else the default. -/
def resolved_extra_path (env : Env) : String :=
  match env.x11ExtraRulesXml with
  | some p => p
  | none => X11_EXTRAS_RULES

lemma keyboard_layouts_eq_resolved (env : Env) :
    keyboard_layouts env = get_keyboard_layouts env (resolved_base_path env) := by
  cases h : env.x11BaseRulesXml <;> simp [keyboard_layouts, resolved_base_path, h]

lemma extra_keyboard_layouts_eq_resolved (env : Env) :
    extra_keyboard_layouts env = get_keyboard_layouts env (resolved_extra_path env) := by
  cases h : env.x11ExtraRulesXml <;> simp [extra_keyboard_layouts, resolved_extra_path, h]

lemma all_of_base_error (env : Env) (e : IOError)
    (hb : keyboard_layouts env = .error e) :
    all_keyboard_layouts env = .error ⟨IOErrorKind.InvalidData, e.msg⟩ := by
  cases hx : extra_keyboard_layouts env <;>
    simp [all_keyboard_layouts, hb, hx, IOError.display]

lemma all_of_extras_error (env : Env) (b : KeyboardLayouts) (e : IOError)
    (hb : keyboard_layouts env = .ok b)
    (hx : extra_keyboard_layouts env = .error e) :
    all_keyboard_layouts env = .error ⟨IOErrorKind.InvalidData, e.msg⟩ := by
  simp [all_keyboard_layouts, hb, hx, IOError.display]

lemma all_of_ok (env : Env) (b e : KeyboardLayouts)
    (hb : keyboard_layouts env = .ok b)
    (hx : extra_keyboard_layouts env = .ok e) :
    all_keyboard_layouts env = .ok (merge_rules b e) := by
  simp [all_keyboard_layouts, hb, hx]

/-! Concrete sample data, used by counterexamples and witnesses. -/

/-- The "us" config item of the end-to-end example. -/
def usItem : ConfigItem := ⟨"us", none, "English (US)"⟩

/-- The "de" config item of the end-to-end example. -/
def deItem : ConfigItem := ⟨"de", some "de", "German"⟩

/-- The nodeadkeys variant of the end-to-end example. -/
def nodeadkeysVariant : KeyboardVariant := ⟨⟨"nodeadkeys", none, "German (no dead keys)"⟩⟩

/-- Layout with no variantList element at all. -/
def usLayout : KeyboardLayout := ⟨usItem, none⟩

/-- Layout with a variantList holding one variant. -/
def deLayout : KeyboardLayout := ⟨deItem, some ⟨some [nodeadkeysVariant]⟩⟩

/-- Layout with a variantList element whose inner variant field is absent. -/
def emptyInnerLayout : KeyboardLayout := ⟨deItem, some ⟨none⟩⟩

/-- Layout with a variantList element whose inner variant vector is present
but holds zero variants. -/
def emptySeqLayout : KeyboardLayout := ⟨usItem, some ⟨some []⟩⟩

/-- A two-layout base catalog. -/
def baseCatalog : KeyboardLayouts := ⟨⟨[usLayout, deLayout]⟩⟩

/-- A one-layout extras catalog. -/
def extrasCatalog : KeyboardLayouts := ⟨⟨[⟨⟨"apl", none, "APL keyboard"⟩, none⟩]⟩⟩

/-- The platform error File::open reports for a missing file. -/
def notFoundErr : IOError := ⟨IOErrorKind.NotFound, "No such file or directory (os error 2)"⟩

/-- World where the base-path override points at a nonexistent file and
every open fails with NotFound. -/
def envMissingBase : Env :=
  ⟨fun _ => .error notFoundErr, fun _ => .ok baseCatalog, some "/nonexistent/base.xml", none⟩

/-- World where every file opens but holds invalid XML. -/
def envBadXml : Env :=
  ⟨fun _ => .ok "<bad", fun _ => .error "syntax error", none, none⟩

/-- World where both overrides are readable, path b holds the base catalog
and every other path the extras catalog. -/
def envOk : Env :=
  ⟨fun p => if p = "b" then .ok "B" else .ok "E",
   fun c => if c = "B" then .ok baseCatalog else .ok extrasCatalog,
   some "b", some "e"⟩

/-- Claim C1 counterexample: with the base-path override pointing at a
nonexistent file, keyboard_layouts fails with the NotFound access-failure
kind, but all_keyboard_layouts returns an error whose kind is InvalidData,
the malformed-data kind, contrary to the claim that both keep the
access-failure kind. -/
theorem c1_kind_counterexample :
    keyboard_layouts envMissingBase = .error notFoundErr ∧
    notFoundErr.kind = IOErrorKind.NotFound ∧
    all_keyboard_layouts envMissingBase
      = .error ⟨IOErrorKind.InvalidData, notFoundErr.msg⟩ ∧
    IOErrorKind.InvalidData ≠ IOErrorKind.NotFound :=
  ⟨rfl, rfl, rfl, by decide⟩

/-- Claim C1 (amended): when the base file cannot be opened,
keyboard_layouts returns the platform error unchanged (its kind is the
access-failure kind), while all_keyboard_layouts rewraps it into an error
of the malformed-data kind InvalidData carrying only its message; when the
base file opens but its content fails to parse, both return an error of
kind InvalidData. -/
theorem c1_error_kinds_amended (env : Env) :
    (∀ e, env.fs (resolved_base_path env) = .error e →
      keyboard_layouts env = .error e ∧
      all_keyboard_layouts env = .error ⟨IOErrorKind.InvalidData, e.msg⟩) ∧
    (∀ c m, env.fs (resolved_base_path env) = .ok c → env.parse c = .error m →
      keyboard_layouts env = .error ⟨IOErrorKind.InvalidData, m⟩ ∧
      all_keyboard_layouts env = .error ⟨IOErrorKind.InvalidData, m⟩) := by
  constructor
  · intro e hfs
    have hb : keyboard_layouts env = .error e := by
      rw [keyboard_layouts_eq_resolved]
      simp [get_keyboard_layouts, hfs]
    exact ⟨hb, all_of_base_error env e hb⟩
  · intro c m hfs hp
    have hb : keyboard_layouts env = .error ⟨IOErrorKind.InvalidData, m⟩ := by
      rw [keyboard_layouts_eq_resolved]
      simp [get_keyboard_layouts, hfs, hp]
    exact ⟨hb, all_of_base_error env ⟨IOErrorKind.InvalidData, m⟩ hb⟩

/-- Witness for the amended C1, at a world with a missing base file and a
world with an unparsable base file. -/
theorem c1_error_kinds_amended_witness :
    (keyboard_layouts envMissingBase = .error notFoundErr ∧
     all_keyboard_layouts envMissingBase
       = .error ⟨IOErrorKind.InvalidData, notFoundErr.msg⟩) ∧
    (keyboard_layouts envBadXml = .error ⟨IOErrorKind.InvalidData, "syntax error"⟩ ∧
     all_keyboard_layouts envBadXml
       = .error ⟨IOErrorKind.InvalidData, "syntax error"⟩) :=
  ⟨(c1_error_kinds_amended envMissingBase).1 notFoundErr rfl,
   (c1_error_kinds_amended envBadXml).2 "<bad" "syntax error" rfl rfl⟩

/-- Claim C2 counterexample: a layout whose variantList element is present
and whose inner variant vector is present but holds zero variants; variants
returns an empty sequence, not nothing, so a present-but-empty variant list
is observably different from no variant list. -/
theorem c2_empty_variant_seq_counterexample :
    emptySeqLayout.variant_list = some ⟨some []⟩ ∧
    emptySeqLayout.variants = some [] ∧
    emptySeqLayout.variants ≠ none :=
  ⟨rfl, rfl, by decide⟩

/-- Claim C2 (amended): variants returns nothing when the layout has no
variantList element, and when the variantList's inner variant field is
absent; when the inner variant sequence is present, it is returned exactly
as stored, in document order -- in particular a present-but-empty inner
sequence yields an empty sequence, which is not nothing. -/
theorem c2_variants_amended (l : KeyboardLayout) :
    (l.variant_list = none → l.variants = none) ∧
    (∀ vl, l.variant_list = some vl → vl.variant = none → l.variants = none) ∧
    (∀ vl vs, l.variant_list = some vl → vl.variant = some vs →
      l.variants = some vs) := by
  refine ⟨fun h => ?_, fun vl h hv => ?_, fun vl vs h hv => ?_⟩ <;>
    simp [KeyboardLayout.variants, h] <;> simp [hv]

/-- Witness for the amended C2 on the three shapes a layout can take. -/
theorem c2_variants_amended_witness :
    usLayout.variants = none ∧
    emptyInnerLayout.variants = none ∧
    deLayout.variants = some [nodeadkeysVariant] :=
  ⟨(c2_variants_amended usLayout).1 rfl,
   (c2_variants_amended emptyInnerLayout).2.1 ⟨none⟩ rfl rfl,
   (c2_variants_amended deLayout).2.2 ⟨some [nodeadkeysVariant]⟩ [nodeadkeysVariant] rfl rfl⟩

/-- Claim C3: when both loads succeed, all_keyboard_layouts succeeds with
the merged catalog, whose layout count is the base count plus the extras
count and whose first K entries (K the base count) are exactly the base
catalog's entries in order; nothing is deduplicated. -/
theorem c3_merge_counts (env : Env) (b e : KeyboardLayouts)
    (hb : keyboard_layouts env = .ok b)
    (hx : extra_keyboard_layouts env = .ok e) :
    all_keyboard_layouts env = .ok (merge_rules b e) ∧
    (merge_rules b e).layouts.length = b.layouts.length + e.layouts.length ∧
    (merge_rules b e).layouts.take b.layouts.length = b.layouts := by
  refine ⟨all_of_ok env b e hb hx, ?_, ?_⟩ <;>
    simp [merge_rules_layouts, List.take_left]

/-- Witness for C3 at a world where both catalogs load. -/
theorem c3_merge_counts_witness :
    all_keyboard_layouts envOk = .ok (merge_rules baseCatalog extrasCatalog) ∧
    (merge_rules baseCatalog extrasCatalog).layouts.length
      = baseCatalog.layouts.length + extrasCatalog.layouts.length ∧
    (merge_rules baseCatalog extrasCatalog).layouts.take baseCatalog.layouts.length
      = baseCatalog.layouts :=
  c3_merge_counts envOk baseCatalog extrasCatalog rfl rfl

/-- Claim C5: get_keyboard_layouts returns the parsed catalog when the file
opens and parses, propagates the platform open error unchanged, and wraps a
parse failure's message in an InvalidData error. -/
theorem c5_get_keyboard_layouts_spec (env : Env) (path : String) :
    (∀ e, env.fs path = .error e →
      get_keyboard_layouts env path = .error e) ∧
    (∀ c k, env.fs path = .ok c → env.parse c = .ok k →
      get_keyboard_layouts env path = .ok k) ∧
    (∀ c m, env.fs path = .ok c → env.parse c = .error m →
      get_keyboard_layouts env path = .error ⟨IOErrorKind.InvalidData, m⟩) := by
  refine ⟨fun e hfs => ?_, fun c k hfs hp => ?_, fun c m hfs hp => ?_⟩ <;>
    simp [get_keyboard_layouts, hfs] <;> simp [hp]

/-- Witness for C5 on all three branches. -/
theorem c5_get_keyboard_layouts_spec_witness :
    get_keyboard_layouts envMissingBase "p" = .error notFoundErr ∧
    get_keyboard_layouts envOk "b" = .ok baseCatalog ∧
    get_keyboard_layouts envBadXml "p"
      = .error ⟨IOErrorKind.InvalidData, "syntax error"⟩ :=
  ⟨(c5_get_keyboard_layouts_spec envMissingBase "p").1 notFoundErr rfl,
   (c5_get_keyboard_layouts_spec envOk "b").2.1 "B" baseCatalog rfl rfl,
   (c5_get_keyboard_layouts_spec envBadXml "p").2.2 "<bad" "syntax error" rfl rfl⟩

/-- Claim C6 counterexample: the base load fails with the NotFound platform
error, yet the error all_keyboard_layouts returns is not that error -- it is
a new InvalidData-kinded error carrying only the message -- contradicting
"its error is the one returned". -/
theorem c6_first_failure_counterexample :
    keyboard_layouts envMissingBase = .error notFoundErr ∧
    all_keyboard_layouts envMissingBase
      = .error ⟨IOErrorKind.InvalidData, notFoundErr.msg⟩ ∧
    (⟨IOErrorKind.InvalidData, notFoundErr.msg⟩ : IOError) ≠ notFoundErr :=
  ⟨rfl, rfl, by decide⟩

/-- Claim C6 (amended): when the base load fails, all_keyboard_layouts
returns an error derived from the base failure alone -- kind InvalidData
with the base failure's message -- whatever the extras load does; only when
the base load succeeds and the extras load fails is the returned error
derived from the extras failure, again as kind InvalidData with its
message. -/
theorem c6_first_failure_amended (env : Env) (e : IOError) :
    (keyboard_layouts env = .error e →
      all_keyboard_layouts env = .error ⟨IOErrorKind.InvalidData, e.msg⟩) ∧
    (∀ b, keyboard_layouts env = .ok b → extra_keyboard_layouts env = .error e →
      all_keyboard_layouts env = .error ⟨IOErrorKind.InvalidData, e.msg⟩) :=
  ⟨fun hb => all_of_base_error env e hb,
   fun b hb hx => all_of_extras_error env b e hb hx⟩

/-- Witness for the amended C6: base failure wins at a world where both
loads fail, and an extras-only failure is also rewrapped. -/
theorem c6_first_failure_amended_witness :
    all_keyboard_layouts envMissingBase
      = .error ⟨IOErrorKind.InvalidData, notFoundErr.msg⟩ :=
  (c6_first_failure_amended envMissingBase notFoundErr).1 rfl

/-- Claim C7: keyboard_layouts reads the X11_BASE_RULES_XML override when it
is readable and the default base path otherwise; extra_keyboard_layouts
reads the X11_EXTRA_RULES_XML override when it is readable and the default
extras path otherwise; in every case the result is get_keyboard_layouts at
the resolved path. -/
theorem c7_path_resolution (env : Env) :
    (∀ p, env.x11BaseRulesXml = some p →
      keyboard_layouts env = get_keyboard_layouts env p) ∧
    (env.x11BaseRulesXml = none →
      keyboard_layouts env = get_keyboard_layouts env X11_BASE_RULES) ∧
    (∀ p, env.x11ExtraRulesXml = some p →
      extra_keyboard_layouts env = get_keyboard_layouts env p) ∧
    (env.x11ExtraRulesXml = none →
      extra_keyboard_layouts env = get_keyboard_layouts env X11_EXTRAS_RULES) := by
  refine ⟨fun p h => ?_, fun h => ?_, fun p h => ?_, fun h => ?_⟩ <;>
    simp [keyboard_layouts, extra_keyboard_layouts, h]

/-- Witness for C7: a world with the base override set and the extras
override unset exercises both resolution branches. -/
theorem c7_path_resolution_witness :
    keyboard_layouts envMissingBase
      = get_keyboard_layouts envMissingBase "/nonexistent/base.xml" ∧
    extra_keyboard_layouts envMissingBase
      = get_keyboard_layouts envMissingBase X11_EXTRAS_RULES :=
  ⟨(c7_path_resolution envMissingBase).1 "/nonexistent/base.xml" rfl,
   (c7_path_resolution envMissingBase).2.2.2 rfl⟩

/-- Claim C8: loading is deterministic and depends only on the file's
content: two loads, in worlds sharing the deserializer, of paths holding
the same content (or failing the same way) return equal results -- in
particular two runs on one fixed content agree, failure and catalog alike. -/
theorem c8_deterministic (env1 env2 : Env) (p q : String)
    (hparse : env1.parse = env2.parse) (hfs : env1.fs p = env2.fs q) :
    get_keyboard_layouts env1 p = get_keyboard_layouts env2 q := by
  simp only [get_keyboard_layouts, hfs, hparse]

/-- Witness for C8: two distinct paths of the same world holding the same
content load to the same catalog. -/
theorem c8_deterministic_witness :
    get_keyboard_layouts envOk "x" = get_keyboard_layouts envOk "y" :=
  c8_deterministic envOk envOk "x" "y" rfl rfl

/-- Claim C10: when both loads succeed, the merged catalog is exactly the
base entries followed by the extras entries, so the entries after the first
K (K the base count) are the extras catalog's entries, unchanged and in
order. -/
theorem c10_tail_is_extras (env : Env) (b e : KeyboardLayouts)
    (hb : keyboard_layouts env = .ok b)
    (hx : extra_keyboard_layouts env = .ok e) :
    all_keyboard_layouts env = .ok (merge_rules b e) ∧
    (merge_rules b e).layouts = b.layouts ++ e.layouts ∧
    (merge_rules b e).layouts.drop b.layouts.length = e.layouts := by
  refine ⟨all_of_ok env b e hb hx, merge_rules_layouts b e, ?_⟩
  simp [merge_rules_layouts, List.drop_left]

/-- Witness for C10 at a world where both catalogs load. -/
theorem c10_tail_is_extras_witness :
    all_keyboard_layouts envOk = .ok (merge_rules baseCatalog extrasCatalog) ∧
    (merge_rules baseCatalog extrasCatalog).layouts
      = baseCatalog.layouts ++ extrasCatalog.layouts ∧
    (merge_rules baseCatalog extrasCatalog).layouts.drop baseCatalog.layouts.length
      = extrasCatalog.layouts :=
  c10_tail_is_extras envOk baseCatalog extrasCatalog rfl rfl

/-! Observational indistinguishability of short_description.  eraseSD
blanks every short_description field; two values "differ only in
short_description fields" exactly when their erasures are equal.  observe
collects everything the public accessor surface can report: for each
layout its name, its description, and its variants -- each variant reduced
to its own name and description. -/

/-- Blank the optional shortDescription of a config item. -/
def ConfigItem.eraseSD (c : ConfigItem) : ConfigItem :=
  ⟨c.name, none, c.description⟩

/-- Blank every shortDescription inside a variant. -/
def KeyboardVariant.eraseSD (v : KeyboardVariant) : KeyboardVariant :=
  ⟨v.config_item.eraseSD⟩

/-- Blank every shortDescription inside a variant list. -/
def VariantList.eraseSD (vl : VariantList) : VariantList :=
  ⟨vl.variant.map (List.map KeyboardVariant.eraseSD)⟩

/-- Blank every shortDescription inside a layout. -/
def KeyboardLayout.eraseSD (l : KeyboardLayout) : KeyboardLayout :=
  ⟨l.config_item.eraseSD, l.variant_list.map VariantList.eraseSD⟩

/-- Blank every shortDescription inside a catalog. -/
def KeyboardLayouts.eraseSD (k : KeyboardLayouts) : KeyboardLayouts :=
  ⟨⟨k.layout_list.layout.map KeyboardLayout.eraseSD⟩⟩

/-- Everything the accessors name and description report about a variant. -/
def KeyboardVariant.observe (v : KeyboardVariant) : String × String :=
  (v.name, v.description)

/-- Everything the accessors name, description and variants report about a
layout. -/
def KeyboardLayout.observe (l : KeyboardLayout) :
    String × String × Option (List (String × String)) :=
  (l.name, l.description, l.variants.map (List.map KeyboardVariant.observe))

/-- Everything the accessor surface reports about a catalog: the layouts
sequence observed layout by layout. -/
def KeyboardLayouts.observe (k : KeyboardLayouts) :
    List (String × String × Option (List (String × String))) :=
  k.layouts.map KeyboardLayout.observe

lemma variant_observe_eraseSD :
    KeyboardVariant.observe ∘ KeyboardVariant.eraseSD = KeyboardVariant.observe :=
  funext fun _ => rfl

lemma variants_eraseSD (l : KeyboardLayout) :
    l.eraseSD.variants = l.variants.map (List.map KeyboardVariant.eraseSD) := by
  cases l with
  | mk ci vl =>
    cases vl with
    | none => rfl
    | some v => cases v with
      | mk inner => cases inner <;> rfl

lemma layout_observe_eraseSD (l : KeyboardLayout) :
    l.eraseSD.observe = l.observe := by
  have hn : l.eraseSD.name = l.name := rfl
  have hd : l.eraseSD.description = l.description := rfl
  have hc : List.map KeyboardVariant.observe ∘ List.map KeyboardVariant.eraseSD
      = List.map KeyboardVariant.observe :=
    funext fun vs => by simp [List.map_map, variant_observe_eraseSD]
  simp only [KeyboardLayout.observe, hn, hd, variants_eraseSD, Option.map_map, hc]

lemma catalog_observe_eraseSD (k : KeyboardLayouts) :
    k.eraseSD.observe = k.observe := by
  have h : KeyboardLayout.observe ∘ KeyboardLayout.eraseSD = KeyboardLayout.observe :=
    funext layout_observe_eraseSD
  simp only [KeyboardLayouts.observe, KeyboardLayouts.eraseSD,
    KeyboardLayouts.layouts, List.map_map, h]

/-- Claim C9: short_description is parsed but never exposed -- two catalogs
that differ only in short_description fields (their erasures are equal) are
indistinguishable through the whole public accessor surface: layouts, each
layout's name, description and variants, and each variant's name and
description all agree. -/
theorem c9_short_description_unobservable (k1 k2 : KeyboardLayouts)
    (h : k1.eraseSD = k2.eraseSD) : k1.observe = k2.observe := by
  rw [← catalog_observe_eraseSD k1, ← catalog_observe_eraseSD k2, h]

/-- Two concrete catalogs differing only in short_description fields. -/
def catalogSDa : KeyboardLayouts :=
  ⟨⟨[⟨⟨"us", some "US", "English (US)"⟩, none⟩,
     ⟨⟨"de", some "de", "German"⟩, some ⟨some [⟨⟨"nodeadkeys", some "nd", "German (no dead keys)"⟩⟩]⟩⟩]⟩⟩

/-- catalogSDa with every short_description changed or dropped. -/
def catalogSDb : KeyboardLayouts :=
  ⟨⟨[⟨⟨"us", none, "English (US)"⟩, none⟩,
     ⟨⟨"de", some "DE", "German"⟩, some ⟨some [⟨⟨"nodeadkeys", none, "German (no dead keys)"⟩⟩]⟩⟩]⟩⟩

/-- Witness for C9: the two catalogs above are unequal yet observe equal. -/
theorem c9_short_description_unobservable_witness :
    catalogSDa ≠ catalogSDb ∧ catalogSDa.observe = catalogSDb.observe :=
  ⟨by decide, c9_short_description_unobservable catalogSDa catalogSDb (by decide)⟩
